import Mathlib

/-!
Shallow embedding of the beatmap cache-and-reconciliation core of the
osuAkatsuki/LESS repository.

Source files embedded:
* `src/consts/statuses.py` — the ranked-status enumeration (`Status`).
* `src/app/models/beatmap.py` — the `Beatmap` dataclass, the staleness
  policy `_should_get_updates` / `deserves_update`, and the storage
  round-trip `to_dict` / `from_mapping` (namespace `Models`).
* `src/app/usecases/beatmap.py` — the reconciliation engine
  `update_beatmap` and the catalog parse adapter `parse_from_osu_api`
  (namespace `Usecases`).

Modelling conventions:
* Python `datetime` / unix timestamps become `Int` seconds.
* Python `float` fields become `Rat` (they are only carried through,
  never computed with, except a single rounding of `bpm`).
* Database writes, deletes and outbound discord notifications are
  side effects; `update_beatmap` returns them explicitly in an
  `UpdateOutcome` record instead of performing them.
* Exceptions (`NotImplementedError` for an unknown status, enum
  construction failure) become `Except String`.
-/

/-- The ranked-status enumeration from `src/consts/statuses.py`
(`class Status(IntEnum)`).  The repository's `RankedStatus` enum
(`app/constants/ranked_status.py`, not part of the provided sources) has
the same members per the spec's data model: seven lifecycle states
totally ordered by declaration order. -/
inductive Status where
  | NOT_SUBMITTED
  | PENDING
  | UPDATE_AVAILABLE
  | RANKED
  | APPROVED
  | QUALIFIED
  | LOVED
deriving DecidableEq, Repr

/-- Integer value of each enum member, as declared in
`src/consts/statuses.py` (`NOT_SUBMITTED = -1`, …, `LOVED = 5`). -/
def Status.value : Status → Int
  | .NOT_SUBMITTED => -1
  | .PENDING => 0
  | .UPDATE_AVAILABLE => 1
  | .RANKED => 2
  | .APPROVED => 3
  | .QUALIFIED => 4
  | .LOVED => 5

/-- The enum constructor `Status(x)` (Python `IntEnum` lookup):
returns the member with the given value, or fails. -/
def Status.fromValue : Int → Option Status
  | -1 => some .NOT_SUBMITTED
  | 0 => some .PENDING
  | 1 => some .UPDATE_AVAILABLE
  | 2 => some .RANKED
  | 3 => some .APPROVED
  | 4 => some .QUALIFIED
  | 5 => some .LOVED
  | _ => none

/-- Modelled from the spec: the game-mode enumeration
`app/constants/mode.py` (`Mode`) is not part of the provided sources;
the spec's data model gives `mode ∈ enum(std, taiko, ctb, mania)` with
the catalog's integer mode codes 0–3. -/
inductive Mode where
  | std
  | taiko
  | ctb
  | mania
deriving DecidableEq, Repr

/-- Integer value of each mode. -/
def Mode.value : Mode → Int
  | .std => 0
  | .taiko => 1
  | .ctb => 2
  | .mania => 3

/-- The enum constructor `Mode(x)`: member with the given value, or
failure. -/
def Mode.fromValue : Int → Option Mode
  | 0 => some .std
  | 1 => some .taiko
  | 2 => some .ctb
  | 3 => some .mania
  | _ => none

theorem status_fromValue_value (s : Status) : Status.fromValue s.value = some s := by
  cases s <;> rfl

theorem mode_fromValue_value (m : Mode) : Mode.fromValue m.value = some m := by
  cases m <;> rfl

/-- Seconds in a day (`ONE_DAY = 86_400` in `src/app/models/beatmap.py`;
the function itself uses `timedelta(days=1)`, the same duration). -/
def ONE_DAY : Int := 86400

/-- The staleness policy `_should_get_updates(ranked_status, last_updated)`
from `src/app/models/beatmap.py`.  The Python function takes the status
as a plain `int` and matches it against the enum members; times are
modelled as unix seconds, with `now` (Python `datetime.now()`) passed
explicitly.  An unmatched status raises `NotImplementedError`, modelled
as `Except.error`. -/
def should_get_updates (ranked_status : Int) (last_updated now : Int) :
    Except String Bool :=
  match ranked_status with
  | 4 => .ok (decide (last_updated ≤ now - 5 * 60))
  | 0 => .ok (decide (last_updated ≤ now - 10 * 60))
  | 5 => .ok (decide (last_updated ≤ now - ONE_DAY))
  | 2 => .ok (decide (last_updated ≤ now - ONE_DAY))
  | 3 => .ok (decide (last_updated ≤ now - ONE_DAY))
  | _ => .error ("Unknown ranked status: " ++ toString ranked_status)

namespace Models

/-- The `Beatmap` dataclass of `src/app/models/beatmap.py`, field for
field in declaration order. -/
structure Beatmap where
  md5 : String
  id : Int
  set_id : Int
  song_name : String
  status : Status
  plays : Int
  passes : Int
  mode : Mode
  od : Rat
  ar : Rat
  difficulty_std : Rat
  difficulty_taiko : Rat
  difficulty_ctb : Rat
  difficulty_mania : Rat
  hit_length : Int
  last_update : Int
  max_combo : Int
  bpm : Int
  filename : String
  frozen : Bool
  rating : Option Rat
deriving DecidableEq, Repr

/-- The persisted row produced by `Beatmap.to_dict`: one field per key
of the returned dict, enum-valued columns stored as their integer
values exactly as the code writes them. -/
structure StorageRow where
  beatmap_md5 : String
  beatmap_id : Int
  beatmapset_id : Int
  song_name : String
  ranked : Int
  playcount : Int
  passcount : Int
  mode : Int
  od : Rat
  ar : Rat
  difficulty_std : Rat
  difficulty_taiko : Rat
  difficulty_ctb : Rat
  difficulty_mania : Rat
  hit_length : Int
  latest_update : Int
  max_combo : Int
  bpm : Int
  file_name : String
  ranked_status_freezed : Bool
  rating : Option Rat
deriving DecidableEq, Repr

/-- `Beatmap.to_dict` from `src/app/models/beatmap.py`. -/
def Beatmap.to_dict (b : Beatmap) : StorageRow where
  beatmap_md5 := b.md5
  beatmap_id := b.id
  beatmapset_id := b.set_id
  song_name := b.song_name
  ranked := b.status.value
  playcount := b.plays
  passcount := b.passes
  mode := b.mode.value
  od := b.od
  ar := b.ar
  difficulty_std := b.difficulty_std
  difficulty_taiko := b.difficulty_taiko
  difficulty_ctb := b.difficulty_ctb
  difficulty_mania := b.difficulty_mania
  hit_length := b.hit_length
  latest_update := b.last_update
  max_combo := b.max_combo
  bpm := b.bpm
  file_name := b.filename
  ranked_status_freezed := b.frozen
  rating := b.rating

/-- `Beatmap.from_mapping` from `src/app/models/beatmap.py`.  The
Python enum constructors `RankedStatus(...)` and `Mode(...)` raise on a
value outside the enum; that failure is modelled as `none`. -/
def Beatmap.from_mapping (row : StorageRow) : Option Beatmap := do
  let status ← Status.fromValue row.ranked
  let mode ← Mode.fromValue row.mode
  some
    { md5 := row.beatmap_md5
      id := row.beatmap_id
      set_id := row.beatmapset_id
      song_name := row.song_name
      status := status
      plays := row.playcount
      passes := row.passcount
      mode := mode
      od := row.od
      ar := row.ar
      difficulty_std := row.difficulty_std
      difficulty_taiko := row.difficulty_taiko
      difficulty_ctb := row.difficulty_ctb
      difficulty_mania := row.difficulty_mania
      hit_length := row.hit_length
      last_update := row.latest_update
      max_combo := row.max_combo
      bpm := row.bpm
      filename := row.file_name
      frozen := row.ranked_status_freezed
      rating := row.rating }

/-- `Beatmap.deserves_update` from `src/app/models/beatmap.py`:
`_should_get_updates(int(self.status), datetime.fromtimestamp(self.last_update))`. -/
def Beatmap.deserves_update (b : Beatmap) (now : Int) : Except String Bool :=
  should_get_updates b.status.value b.last_update now

end Models

namespace Usecases

/-- The `Beatmap` record as used by `src/app/usecases/beatmap.py`: the
fields the usecases module reads, writes, and passes to the `Beatmap`
constructor in `parse_from_osu_api` (this set extends the dataclass in
`src/app/models/beatmap.py` with `rankedby`, `bancho_ranked_status` and
the object counts, and the `save` column list confirms it). -/
structure Beatmap where
  md5 : String
  id : Int
  set_id : Int
  song_name : String
  status : Status
  plays : Int
  passes : Int
  mode : Mode
  od : Rat
  ar : Rat
  hit_length : Int
  last_update : Int
  max_combo : Int
  bpm : Int
  filename : String
  frozen : Bool
  rankedby : Option Int
  rating : Option Rat
  bancho_ranked_status : Option Status
  count_circles : Int
  count_sliders : Int
  count_spinners : Int
deriving DecidableEq, Repr

/-- One call to `app.usecases.discord.beatmap_status_change(old_beatmap,
new_beatmap, action_taken)`, recorded with the argument values at call
time. -/
structure Notification where
  action : String
  old : Beatmap
  new : Beatmap
deriving DecidableEq, Repr

/-- The observable outcome of one `update_beatmap` call: the returned
value, the checksums deleted from the store, the discord notifications
fired, and the entity written back via `save`. -/
structure UpdateOutcome where
  returned : Option Beatmap
  deleted : List String
  notifications : List Notification
  saved : Option Beatmap
deriving DecidableEq, Repr

/-- The reconciliation engine `update_beatmap(beatmap)` from
`src/app/usecases/beatmap.py`.  Externals are passed explicitly:
`now` is `int(time.time())` (also the clock inside `deserves_update`),
and `api_result` is the value of `await id_from_api(beatmap.id)`.
Database and discord side effects are returned in the outcome record
rather than performed.  The Python mutates `new_beatmap` in place; here
each mutation produces the next value, and each notification captures
`new_beatmap` as it stands at the call (in the regression branch the
notification fires before the status is forced). -/
def update_beatmap (beatmap : Beatmap) (now : Int) (api_result : Option Beatmap) :
    Except String UpdateOutcome :=
  match should_get_updates beatmap.status.value beatmap.last_update now with
  | .error e => .error e
  | .ok due =>
    if !due then
      .ok { returned := some beatmap, deleted := [], notifications := [], saved := none }
    else
      match api_result with
      | none =>
        .ok { returned := none, deleted := [beatmap.md5], notifications := [], saved := none }
      | some fetched =>
        let deleted := if fetched.md5 ≠ beatmap.md5 then [beatmap.md5] else []
        let new1 :=
          if fetched.md5 ≠ beatmap.md5 then
            fetched
          else
            { fetched with
                plays := beatmap.plays
                passes := beatmap.passes
                rating := beatmap.rating
                rankedby := beatmap.rankedby }
        let step :=
          if beatmap.frozen then
            ({ new1 with
                status := beatmap.status
                frozen := true
                rankedby := beatmap.rankedby },
             ([] : List Notification))
          else if beatmap.status ≠ new1.status then
            if new1.status = Status.PENDING ∧
                (beatmap.status = Status.RANKED ∨ beatmap.status = Status.APPROVED ∨
                  beatmap.status = Status.LOVED) then
              ({ new1 with status := beatmap.status, frozen := true },
               [{ action := "frozen", old := beatmap, new := new1 }])
            else
              (new1, [{ action := "status_change", old := beatmap, new := new1 }])
          else
            (new1, [])
        let merged := { step.1 with last_update := now }
        .ok { returned := some merged, deleted := deleted,
              notifications := step.2, saved := some merged }

end Usecases

namespace Usecases

/-- One raw catalog record as consumed by `parse_from_osu_api`
(`src/app/usecases/beatmap.py`): the JSON keys the function reads, with
the numeric coercions (`int(...)`, `float(...)`) already applied to the
well-typed value.  `max_combo` and `bpm` are optional
(`response_json.get`). -/
structure OsuApiRecord where
  file_md5 : String
  beatmap_id : Int
  beatmapset_id : Int
  artist : String
  title : String
  creator : String
  version : String
  hit_length : Int
  max_combo : Option Int
  approved : Int
  mode : Int
  bpm : Option Rat
  diff_overall : Rat
  diff_approach : Rat
  count_circles : Int
  count_sliders : Int
  count_spinners : Int
deriving DecidableEq, Repr

/-- Python's built-in `round` on a rational: nearest integer, ties to
even (banker's rounding).  The fractional part `q - f` is compared with
one half through integer arithmetic on the numerator and denominator. -/
def pyRound (q : Rat) : Int :=
  let f : Int := Int.fdiv q.num (q.den : Int)
  let r2 : Int := 2 * (q.num - f * (q.den : Int))
  if r2 < (q.den : Int) then f
  else if (q.den : Int) < r2 then f + 1
  else if f % 2 = 0 then f else f + 1

/-- The character set `IGNORED_BEATMAP_CHARS` deleted from names
(Python raw string of colon, backslash, slash, star, angle brackets,
question mark, double quote, pipe). -/
def IGNORED_BEATMAP_CHARS : List Char :=
  [':', '\\', '/', '*', '<', '>', '?', '"', '|']

/-- `str.translate(IGNORED_BEATMAP_CHARS)` with every mapped character
deleted. -/
def stripIgnoredChars (s : String) : String :=
  String.mk (s.data.filter (fun c => !IGNORED_BEATMAP_CHARS.contains c))

/-- `FROZEN_STATUSES = (RANKED, APPROVED, LOVED)` from
`src/app/usecases/beatmap.py`. -/
def FROZEN_STATUSES : List Status := [.RANKED, .APPROVED, .LOVED]

/-- The catalog parse adapter `parse_from_osu_api(response_json_list)`
from `src/app/usecases/beatmap.py`.  `from_osu_api` stands for
`RankedStatus.from_osu_api` — modelled from the spec: the fixed
translation table from the catalog's `approved` code to the internal
enum lives in `app/constants/ranked_status.py`, which is not among the
provided sources, so it is passed as a parameter.  `now` is
`int(time.time())`.  An invalid mode code (Python `Mode(...)` raising)
is an error; the truthiness tests on `max_combo` and `bpm` treat a
missing or zero value as absent, defaulting to `0` (`round` on `bpm`
is modelled by `pyRound`). -/
def parse_from_osu_api (from_osu_api : Int → Status) (now : Int) :
    List OsuApiRecord → Except String (List Beatmap)
  | [] => .ok []
  | r :: rest =>
    match Mode.fromValue r.mode with
    | none => .error ("invalid mode: " ++ toString r.mode)
    | some mode =>
      let filename := stripIgnoredChars
        (r.artist ++ " - " ++ r.title ++ " (" ++ r.creator ++ ") [" ++ r.version ++ "].osu")
      let song_name := stripIgnoredChars
        (r.artist ++ " - " ++ r.title ++ " [" ++ r.version ++ "]")
      let max_combo :=
        match r.max_combo with
        | some v => if v ≠ 0 then v else 0
        | none => 0
      let bancho_ranked_status := from_osu_api r.approved
      let frozen := FROZEN_STATUSES.contains bancho_ranked_status
      let bpm :=
        match r.bpm with
        | some v => if v ≠ 0 then pyRound v else 0
        | none => 0
      let b : Beatmap :=
        { md5 := r.file_md5
          id := r.beatmap_id
          set_id := r.beatmapset_id
          song_name := song_name
          status := bancho_ranked_status
          plays := 0
          passes := 0
          mode := mode
          od := r.diff_overall
          ar := r.diff_approach
          hit_length := r.hit_length
          last_update := now
          max_combo := max_combo
          bpm := bpm
          filename := filename
          frozen := frozen
          rankedby := none
          rating := some 10
          bancho_ranked_status := some bancho_ranked_status
          count_circles := r.count_circles
          count_sliders := r.count_sliders
          count_spinners := r.count_spinners }
      match parse_from_osu_api from_osu_api now rest with
      | .error e => .error e
      | .ok maps => .ok (b :: maps)

/-- A sequence of reconciliations: each step feeds the previous step's
returned entity into the next `update_beatmap` call, with that call's
clock value and catalog answer.  The sequence stops when the entity is
deleted (`update_beatmap` returned `None`). -/
def update_seq : Beatmap → List (Int × Option Beatmap) → Except String (Option Beatmap)
  | b, [] => .ok (some b)
  | b, (now, api) :: rest =>
    match update_beatmap b now api with
    | .error e => .error e
    | .ok o =>
      match o.returned with
      | none => .ok none
      | some m => update_seq m rest

end Usecases

/-- Refresh interval, in seconds, per status, as written in
`_should_get_updates`: 5 minutes for Qualified, 10 minutes for Pending,
one day for Loved and for Ranked/Approved (0 for the statuses the
function rejects). -/
def statusInterval : Status → Int
  | .QUALIFIED => 5 * 60
  | .PENDING => 10 * 60
  | .LOVED => ONE_DAY
  | .RANKED => ONE_DAY
  | .APPROVED => ONE_DAY
  | _ => 0

/-- C5: for every status in Qualified/Pending/Loved/Ranked/Approved and
every `last_update` and `now`, the staleness check returns true iff
`last_update ≤ now - interval(status)` with the interval 5 min / 10 min
/ 1 day / 1 day respectively; the boundary `last_update = now - interval`
is due, and one second younger is not due. -/
theorem should_get_updates_interval (s : Status) (last_update now : Int)
    (h : s = .QUALIFIED ∨ s = .PENDING ∨ s = .LOVED ∨ s = .RANKED ∨ s = .APPROVED) :
    should_get_updates s.value last_update now =
      .ok (decide (last_update ≤ now - statusInterval s)) ∧
    should_get_updates s.value (now - statusInterval s) now = .ok true ∧
    should_get_updates s.value (now - statusInterval s + 1) now = .ok false := by
  rcases h with h | h | h | h | h <;> subst h <;>
    refine ⟨rfl, ?_, ?_⟩ <;>
    simp [should_get_updates, statusInterval, Status.value, ONE_DAY]

/-- Witness for C5 at status Qualified, `last_update = 0`, `now = 1000`. -/
theorem should_get_updates_interval_witness :
    (Status.QUALIFIED = Status.QUALIFIED ∨ Status.QUALIFIED = Status.PENDING ∨
      Status.QUALIFIED = Status.LOVED ∨ Status.QUALIFIED = Status.RANKED ∨
      Status.QUALIFIED = Status.APPROVED) ∧
    (should_get_updates Status.QUALIFIED.value 0 1000 =
      .ok (decide ((0 : Int) ≤ 1000 - statusInterval Status.QUALIFIED)) ∧
    should_get_updates Status.QUALIFIED.value (1000 - statusInterval Status.QUALIFIED) 1000 =
      .ok true ∧
    should_get_updates Status.QUALIFIED.value (1000 - statusInterval Status.QUALIFIED + 1) 1000 =
      .ok false) :=
  ⟨Or.inl rfl, should_get_updates_interval Status.QUALIFIED 0 1000 (Or.inl rfl)⟩

/-- C6: for every status outside Qualified/Pending/Loved/Ranked/Approved
(that is, NotSubmitted or UpdateAvailable), the staleness check fails
with the unknown-status error rather than returning any normal boolean
result. -/
theorem should_get_updates_unknown (s : Status) (last_update now : Int)
    (h : ¬(s = .QUALIFIED ∨ s = .PENDING ∨ s = .LOVED ∨ s = .RANKED ∨ s = .APPROVED)) :
    should_get_updates s.value last_update now =
      .error ("Unknown ranked status: " ++ toString s.value) ∧
    ∀ b : Bool, should_get_updates s.value last_update now ≠ .ok b := by
  cases s <;> simp_all [should_get_updates, Status.value]

/-- Witness for C6 at status NotSubmitted. -/
theorem should_get_updates_unknown_witness :
    ¬(Status.NOT_SUBMITTED = Status.QUALIFIED ∨ Status.NOT_SUBMITTED = Status.PENDING ∨
        Status.NOT_SUBMITTED = Status.LOVED ∨ Status.NOT_SUBMITTED = Status.RANKED ∨
        Status.NOT_SUBMITTED = Status.APPROVED) ∧
    (should_get_updates Status.NOT_SUBMITTED.value 3 5 =
      .error ("Unknown ranked status: " ++ toString Status.NOT_SUBMITTED.value) ∧
    ∀ b : Bool, should_get_updates Status.NOT_SUBMITTED.value 3 5 ≠ .ok b) :=
  ⟨by decide, should_get_updates_unknown Status.NOT_SUBMITTED 3 5 (by decide)⟩

/-- C7: the storage round-trip is the identity: for every Entity `e`,
`from_mapping(to_dict(e))` succeeds and reproduces `e` field for field. -/
theorem from_mapping_to_dict (b : Models.Beatmap) :
    Models.Beatmap.from_mapping (Models.Beatmap.to_dict b) = some b := by
  cases b
  simp [Models.Beatmap.to_dict, Models.Beatmap.from_mapping,
    status_fromValue_value, mode_fromValue_value]

namespace Usecases

/-- Single-step freeze preservation: any `update_beatmap` call on a
frozen entity that returns an entity returns one with the old status
and `frozen` still set. -/
theorem update_beatmap_frozen_step (b : Beatmap) (hb : b.frozen = true)
    (now : Int) (api : Option Beatmap) (o : UpdateOutcome)
    (h : update_beatmap b now api = .ok o)
    (m : Beatmap) (hm : o.returned = some m) :
    m.status = b.status ∧ m.frozen = true := by
  unfold update_beatmap at h
  cases hsg : should_get_updates b.status.value b.last_update now with
  | error e => rw [hsg] at h; cases h
  | ok due =>
    rw [hsg] at h
    cases due with
    | false =>
      simp only [Bool.not_false, if_true, Except.ok.injEq] at h
      subst h
      simp only at hm
      cases hm
      exact ⟨rfl, hb⟩
    | true =>
      simp only [Bool.not_true, if_false, Bool.false_eq_true] at h
      cases api with
      | none =>
        simp only [Except.ok.injEq] at h
        subst h
        simp at hm
      | some fetched =>
        simp only [hb, if_true, Except.ok.injEq] at h
        subst h
        simp only [Option.some.injEq] at hm
        subst hm
        constructor <;> rfl

/-- C2: freeze invariant — starting from an entity with `frozen = true`,
any sequence of reconciliation calls, with arbitrary clocks and
arbitrary catalog answers at each step, that still yields an entity
yields one with the original status and `frozen` still true. -/
theorem update_seq_frozen (b : Beatmap) (hb : b.frozen = true)
    (calls : List (Int × Option Beatmap)) (m : Beatmap)
    (h : update_seq b calls = .ok (some m)) :
    m.status = b.status ∧ m.frozen = true := by
  induction calls generalizing b with
  | nil =>
    simp only [update_seq, Except.ok.injEq, Option.some.injEq] at h
    subst h
    exact ⟨rfl, hb⟩
  | cons c rest ih =>
    rw [update_seq] at h
    cases hu : update_beatmap b c.1 c.2 with
    | error e => rw [hu] at h; cases h
    | ok o =>
      rw [hu] at h
      dsimp only at h
      cases hr : o.returned with
      | none => rw [hr] at h; simp at h
      | some m1 =>
        rw [hr] at h
        dsimp only at h
        obtain ⟨hstat, hfroz⟩ := update_beatmap_frozen_step b hb c.1 c.2 o hu m1 hr
        obtain ⟨ih1, ih2⟩ := ih m1 hfroz h
        exact ⟨ih1.trans hstat, ih2⟩

/-- Concrete entities used to instantiate the reconciliation theorems:
a frozen ranked entity with accumulated stats. -/
def sampleOld : Beatmap :=
  { md5 := "A"
    id := 42
    set_id := 7
    song_name := "song"
    status := .RANKED
    plays := 50
    passes := 30
    mode := .std
    od := 5
    ar := 5
    hit_length := 100
    last_update := 0
    max_combo := 100
    bpm := 120
    filename := "file"
    frozen := true
    rankedby := some 99
    rating := some 7
    bancho_ranked_status := none
    count_circles := 1
    count_sliders := 2
    count_spinners := 3 }

/-- A freshly parsed candidate reporting status Pending for the same id
under a different checksum. -/
def sampleCand : Beatmap :=
  { sampleOld with
      md5 := "B"
      status := .PENDING
      plays := 0
      passes := 0
      frozen := false
      rankedby := none
      rating := some 10 }

/-- Witness for C2: one reconciliation step on the frozen `sampleOld`
with the catalog reporting `sampleCand`. -/
theorem update_seq_frozen_witness :
    sampleOld.frozen = true ∧
    ({ sampleCand with
        status := .RANKED
        frozen := true
        rankedby := some 99
        last_update := 100000 } : Beatmap).status = sampleOld.status ∧
    ({ sampleCand with
        status := .RANKED
        frozen := true
        rankedby := some 99
        last_update := 100000 } : Beatmap).frozen = true :=
  ⟨rfl,
    update_seq_frozen sampleOld rfl [(100000, some sampleCand)]
      { sampleCand with
          status := .RANKED
          frozen := true
          rankedby := some 99
          last_update := 100000 } (by rfl)⟩

/-- Proof-side view of the same-identity stat carry (lines 40–47 of
`update_beatmap`): on an identity change the fetched record is kept as
is, otherwise `plays`, `passes`, `rating`, `rankedby` are copied
forward from the old entity. -/
def mergeStats (b fetched : Beatmap) : Beatmap :=
  if fetched.md5 ≠ b.md5 then
    fetched
  else
    { fetched with
        plays := b.plays
        passes := b.passes
        rating := b.rating
        rankedby := b.rankedby }

/-- Proof-side view of the deletions issued by `update_beatmap` when
the catalog answered (line 34–39): the old row is deleted exactly when
the checksum changed. -/
def mergeDeleted (b fetched : Beatmap) : List String :=
  if fetched.md5 ≠ b.md5 then [b.md5] else []

/-- Proof-side view of the status resolution (lines 49–73 of
`update_beatmap`), applied to the stat-merged entity: the frozen
override, the regression-to-pending freeze, or the plain status
change, together with the discord notifications fired. -/
def mergeStatus (b new1 : Beatmap) : Beatmap × List Notification :=
  if b.frozen then
    ({ new1 with
        status := b.status
        frozen := true
        rankedby := b.rankedby },
     ([] : List Notification))
  else if b.status ≠ new1.status then
    if new1.status = Status.PENDING ∧
        (b.status = Status.RANKED ∨ b.status = Status.APPROVED ∨
          b.status = Status.LOVED) then
      ({ new1 with status := b.status, frozen := true },
       [{ action := "frozen", old := b, new := new1 }])
    else
      (new1, [{ action := "status_change", old := b, new := new1 }])
  else
    (new1, [])

/-- When the entity is due and the catalog answered, `update_beatmap`
is exactly: delete on identity change, carry stats on same identity,
resolve the status, stamp `last_update = now`, save and return. -/
theorem update_beatmap_due_some (b fetched : Beatmap) (now : Int)
    (hdue : should_get_updates b.status.value b.last_update now = .ok true) :
    update_beatmap b now (some fetched) =
      .ok { returned := some { (mergeStatus b (mergeStats b fetched)).1 with last_update := now }
            deleted := mergeDeleted b fetched
            notifications := (mergeStatus b (mergeStats b fetched)).2
            saved := some { (mergeStatus b (mergeStats b fetched)).1 with last_update := now } } := by
  unfold update_beatmap
  rw [hdue]
  rfl

/-- When the entity is not yet due, `update_beatmap` returns it
unchanged and performs nothing. -/
theorem update_beatmap_not_due (b : Beatmap) (now : Int) (api : Option Beatmap)
    (hnd : should_get_updates b.status.value b.last_update now = .ok false) :
    update_beatmap b now api =
      .ok { returned := some b, deleted := [], notifications := [], saved := none } := by
  unfold update_beatmap
  rw [hnd]
  rfl

theorem mergeStats_status (b f : Beatmap) : (mergeStats b f).status = f.status := by
  unfold mergeStats; split <;> rfl

theorem mergeStats_md5 (b f : Beatmap) : (mergeStats b f).md5 = f.md5 := by
  unfold mergeStats; split <;> rfl

theorem mergeStats_frozen (b f : Beatmap) : (mergeStats b f).frozen = f.frozen := by
  unfold mergeStats; split <;> rfl

/-- C10: when the old entity is frozen and the catalog-reported status
differs, the merge silently forces the old status: a merged entity is
returned with the old status and `frozen` set, and no notification of
any kind is emitted. -/
theorem update_beatmap_frozen_silent (b cand : Beatmap) (now : Int)
    (hb : b.frozen = true) (hst : cand.status ≠ b.status)
    (hdue : should_get_updates b.status.value b.last_update now = .ok true)
    (o : UpdateOutcome) (h : update_beatmap b now (some cand) = .ok o) :
    o.notifications = [] ∧
    ∃ m, o.returned = some m ∧ m.status = b.status ∧ m.frozen = true := by
  rw [update_beatmap_due_some b cand now hdue] at h
  simp only [Except.ok.injEq] at h
  subst h
  unfold mergeStatus
  rw [if_pos hb]
  exact ⟨rfl, _, rfl, rfl, rfl⟩

/-- The entity `update_beatmap` persists for `sampleOld` against
`sampleCand` at time 100000: the candidate with the frozen old status
forced back on. -/
def sampleMerged : Beatmap :=
  { sampleCand with
      status := .RANKED
      frozen := true
      rankedby := some 99
      last_update := 100000 }

/-- The full outcome of that call. -/
def sampleFrozenOutcome : UpdateOutcome :=
  { returned := some sampleMerged
    deleted := ["A"]
    notifications := []
    saved := some sampleMerged }

/-- Witness for C10: frozen ranked `sampleOld` against the pending
`sampleCand`. -/
theorem update_beatmap_frozen_silent_witness :
    sampleOld.frozen = true ∧ sampleCand.status ≠ sampleOld.status ∧
    should_get_updates sampleOld.status.value sampleOld.last_update 100000 = .ok true ∧
    update_beatmap sampleOld 100000 (some sampleCand) = .ok sampleFrozenOutcome ∧
    (sampleFrozenOutcome.notifications = [] ∧
      ∃ m, sampleFrozenOutcome.returned = some m ∧
        m.status = sampleOld.status ∧ m.frozen = true) :=
  ⟨rfl, by decide, by rfl, by rfl,
    update_beatmap_frozen_silent sampleOld sampleCand 100000 rfl (by decide) (by rfl)
      sampleFrozenOutcome (by rfl)⟩

/-- C4: when the fetched candidate has the same checksum, the merged
entity carries forward `plays`, `passes`, `rating` and `rankedby`
(attributed_by) from the old entity, and its `last_update` is `now`. -/
theorem update_beatmap_same_md5_carries_stats (b cand : Beatmap) (now : Int)
    (hmd5 : cand.md5 = b.md5)
    (hdue : should_get_updates b.status.value b.last_update now = .ok true)
    (o : UpdateOutcome) (h : update_beatmap b now (some cand) = .ok o) :
    ∃ m, o.returned = some m ∧ o.saved = some m ∧
      m.plays = b.plays ∧ m.passes = b.passes ∧ m.rating = b.rating ∧
      m.rankedby = b.rankedby ∧ m.last_update = now := by
  rw [update_beatmap_due_some b cand now hdue] at h
  simp only [Except.ok.injEq] at h
  subst h
  refine ⟨_, rfl, rfl, ?_⟩
  have hstats : mergeStats b cand =
      { cand with
          plays := b.plays
          passes := b.passes
          rating := b.rating
          rankedby := b.rankedby } := by
    unfold mergeStats
    rw [if_neg (by simp [hmd5])]
  rw [hstats]
  unfold mergeStatus
  split
  · exact ⟨rfl, rfl, rfl, rfl, rfl⟩
  · split
    · split
      · exact ⟨rfl, rfl, rfl, rfl, rfl⟩
      · exact ⟨rfl, rfl, rfl, rfl, rfl⟩
    · exact ⟨rfl, rfl, rfl, rfl, rfl⟩

/-- A non-frozen pending entity with accumulated stats (the spec's
same-identity scenario: plays 120, passes 80, rating 7.5). -/
def samplePendingOld : Beatmap :=
  { sampleOld with
      status := .PENDING
      frozen := false
      plays := 120
      passes := 80
      rating := some (15 / 2) }

/-- A fresh parse of the same map (same checksum, default stats). -/
def sampleFresh : Beatmap :=
  { samplePendingOld with
      plays := 0
      passes := 0
      rating := some 10
      rankedby := none }

/-- Outcome of reconciling `samplePendingOld` with `sampleFresh` at
time 1000: stats carried forward, timestamp updated, nothing deleted,
nothing notified. -/
def samePendingOutcome : UpdateOutcome :=
  { returned := some { samplePendingOld with last_update := 1000 }
    deleted := []
    notifications := []
    saved := some { samplePendingOld with last_update := 1000 } }

/-- Witness for C4: same checksum, same status, stats carried. -/
theorem update_beatmap_same_md5_carries_stats_witness :
    sampleFresh.md5 = samplePendingOld.md5 ∧
    should_get_updates samplePendingOld.status.value samplePendingOld.last_update 1000 =
      .ok true ∧
    update_beatmap samplePendingOld 1000 (some sampleFresh) = .ok samePendingOutcome ∧
    (∃ m, samePendingOutcome.returned = some m ∧ samePendingOutcome.saved = some m ∧
      m.plays = samplePendingOld.plays ∧ m.passes = samplePendingOld.passes ∧
      m.rating = samplePendingOld.rating ∧ m.rankedby = samplePendingOld.rankedby ∧
      m.last_update = 1000) :=
  ⟨rfl, by rfl, by rfl,
    update_beatmap_same_md5_carries_stats samplePendingOld sampleFresh 1000 rfl (by rfl)
      samePendingOutcome (by rfl)⟩

/-- C3: non-frozen status resolution.  If the candidate reports Pending
while the old status is Ranked/Approved/Loved, the merge keeps the old
status, sets `frozen`, and emits exactly one "frozen" notification with
the old entity and the (stat-merged) candidate; for any other
non-frozen difference the catalog status is accepted as-is and exactly
one "status_change" notification is emitted. -/
theorem update_beatmap_status_resolution (b cand : Beatmap) (now : Int)
    (hf : b.frozen = false)
    (hdue : should_get_updates b.status.value b.last_update now = .ok true)
    (o : UpdateOutcome) (h : update_beatmap b now (some cand) = .ok o) :
    (cand.status = Status.PENDING ∧
        (b.status = Status.RANKED ∨ b.status = Status.APPROVED ∨
          b.status = Status.LOVED) →
      ∃ m, o.returned = some m ∧ m.status = b.status ∧ m.frozen = true ∧
        o.notifications = [{ action := "frozen", old := b, new := mergeStats b cand }]) ∧
    (b.status ≠ cand.status ∧
        ¬(cand.status = Status.PENDING ∧
          (b.status = Status.RANKED ∨ b.status = Status.APPROVED ∨
            b.status = Status.LOVED)) →
      ∃ m, o.returned = some m ∧ m.status = cand.status ∧ m.frozen = cand.frozen ∧
        o.notifications = [{ action := "status_change", old := b, new := mergeStats b cand }]) := by
  rw [update_beatmap_due_some b cand now hdue] at h
  simp only [Except.ok.injEq] at h
  subst h
  constructor
  · rintro ⟨hp, hr⟩
    have hne : b.status ≠ cand.status := by
      rcases hr with h' | h' | h' <;> rw [h', hp] <;> decide
    unfold mergeStatus
    rw [if_neg (by simp [hf])]
    rw [if_pos (by rw [mergeStats_status]; exact hne)]
    rw [if_pos (⟨by rw [mergeStats_status]; exact hp, hr⟩ :
      (mergeStats b cand).status = Status.PENDING ∧
        (b.status = Status.RANKED ∨ b.status = Status.APPROVED ∨
          b.status = Status.LOVED))]
    exact ⟨_, rfl, rfl, rfl, rfl⟩
  · rintro ⟨hne, hnr⟩
    unfold mergeStatus
    rw [if_neg (by simp [hf])]
    rw [if_pos (by rw [mergeStats_status]; exact hne)]
    rw [if_neg (by rw [mergeStats_status]; exact hnr)]
    exact ⟨_, rfl, mergeStats_status b cand, mergeStats_frozen b cand, rfl⟩

/-- The old entity for the regression-to-pending scenario: ranked, not
frozen. -/
def c3old : Beatmap := { sampleOld with frozen := false }

/-- The candidate for that scenario: same checksum, catalog now says
Pending. -/
def c3cand : Beatmap := { sampleCand with md5 := "A" }

/-- The candidate after the stat carry. -/
def c3new1 : Beatmap :=
  { c3cand with plays := 50, passes := 30, rating := some 7, rankedby := some 99 }

/-- The merged entity: old status forced back, frozen, restamped. -/
def c3merged : Beatmap :=
  { c3new1 with status := .RANKED, frozen := true, last_update := 100000 }

/-- The full outcome of the regression-to-pending reconciliation. -/
def c3outcome : UpdateOutcome :=
  { returned := some c3merged
    deleted := []
    notifications := [{ action := "frozen", old := c3old, new := c3new1 }]
    saved := some c3merged }

/-- Witness for C3: `old = (status Ranked, frozen false)`, fetched
Pending — merged is Ranked and frozen, one "frozen" notification. -/
theorem update_beatmap_status_resolution_witness :
    c3old.frozen = false ∧
    should_get_updates c3old.status.value c3old.last_update 100000 = .ok true ∧
    update_beatmap c3old 100000 (some c3cand) = .ok c3outcome ∧
    (c3cand.status = Status.PENDING ∧
      (c3old.status = Status.RANKED ∨ c3old.status = Status.APPROVED ∨
        c3old.status = Status.LOVED)) ∧
    (∃ m, c3outcome.returned = some m ∧ m.status = c3old.status ∧ m.frozen = true ∧
      c3outcome.notifications =
        [{ action := "frozen", old := c3old, new := mergeStats c3old c3cand }]) :=
  ⟨rfl, by rfl, by rfl, ⟨rfl, Or.inl rfl⟩,
    (update_beatmap_status_resolution c3old c3cand 100000 rfl (by rfl) c3outcome
        (by rfl)).1 ⟨rfl, Or.inl rfl⟩⟩

/-- C8: reconciliation is idempotent within the refresh window — if a
first `update_beatmap` call returned an entity `m`, and at the second
call's time `m` is not yet due again, the second call returns `m`
unchanged with no deletion, no notification and no save. -/
theorem update_beatmap_idempotent (b : Beatmap) (now1 now2 : Int)
    (api : Option Beatmap) (o1 : UpdateOutcome)
    (h1 : update_beatmap b now1 api = .ok o1)
    (m : Beatmap) (h2 : o1.returned = some m)
    (hwin : should_get_updates m.status.value m.last_update now2 = .ok false) :
    update_beatmap m now2 api =
      .ok { returned := some m, deleted := [], notifications := [], saved := none } :=
  update_beatmap_not_due m now2 api hwin

/-- Witness for C8: reconcile `samplePendingOld` at time 1000, then
again at time 1200 (inside the 10-minute Pending window). -/
theorem update_beatmap_idempotent_witness :
    update_beatmap samplePendingOld 1000 (some sampleFresh) = .ok samePendingOutcome ∧
    samePendingOutcome.returned = some { samplePendingOld with last_update := 1000 } ∧
    should_get_updates ({ samplePendingOld with last_update := 1000 } : Beatmap).status.value
      ({ samplePendingOld with last_update := 1000 } : Beatmap).last_update 1200 = .ok false ∧
    update_beatmap { samplePendingOld with last_update := 1000 } 1200 (some sampleFresh) =
      .ok { returned := some { samplePendingOld with last_update := 1000 }
            deleted := []
            notifications := []
            saved := none } :=
  ⟨by rfl, rfl, by rfl,
    update_beatmap_idempotent samplePendingOld 1000 1200 (some sampleFresh)
      samePendingOutcome (by rfl) { samplePendingOld with last_update := 1000 } rfl (by rfl)⟩

/-- Counterexample to C1 as stated: `sampleOld` is frozen, the fetched
`sampleCand` has a different checksum, yet the persisted replacement
does not have the candidate's fields — its status, frozen flag and
rankedby are carried over from the old entity. -/
theorem update_beatmap_replacement_counterexample :
    sampleCand.md5 ≠ sampleOld.md5 ∧
    update_beatmap sampleOld 100000 (some sampleCand) = .ok sampleFrozenOutcome ∧
    sampleFrozenOutcome.deleted = [sampleOld.md5] ∧
    sampleFrozenOutcome.saved = some sampleMerged ∧
    sampleMerged.status ≠ sampleCand.status ∧
    sampleMerged.frozen ≠ sampleCand.frozen ∧
    sampleMerged.rankedby ≠ sampleCand.rankedby :=
  ⟨by decide, by rfl, rfl, rfl, by decide, by decide, by decide⟩

/-- C1 (amended): on an identity change with a non-frozen old entity,
and outside the regression-to-pending case, `update_beatmap` deletes
the row keyed by the old checksum and persists (and returns) the
candidate exactly, with only `last_update` set to now — in particular
no counter/rating carryover takes place. -/
theorem update_beatmap_replacement (b cand : Beatmap) (now : Int)
    (hmd5 : cand.md5 ≠ b.md5) (hf : b.frozen = false)
    (hnr : ¬(cand.status = Status.PENDING ∧
      (b.status = Status.RANKED ∨ b.status = Status.APPROVED ∨
        b.status = Status.LOVED)))
    (hdue : should_get_updates b.status.value b.last_update now = .ok true)
    (o : UpdateOutcome) (h : update_beatmap b now (some cand) = .ok o) :
    o.deleted = [b.md5] ∧
    o.returned = some { cand with last_update := now } ∧
    o.saved = some { cand with last_update := now } := by
  rw [update_beatmap_due_some b cand now hdue] at h
  simp only [Except.ok.injEq] at h
  subst h
  have hs : mergeStats b cand = cand := by
    unfold mergeStats; rw [if_pos hmd5]
  have hm : (mergeStatus b cand).1 = cand := by
    unfold mergeStatus
    rw [if_neg (by simp [hf])]
    by_cases hne : b.status ≠ cand.status
    · rw [if_pos hne, if_neg hnr]
    · rw [if_neg hne]
  refine ⟨?_, ?_, ?_⟩
  · show mergeDeleted b cand = [b.md5]
    unfold mergeDeleted; rw [if_pos hmd5]
  · show some { (mergeStatus b (mergeStats b cand)).1 with last_update := now } =
      some { cand with last_update := now }
    rw [hs, hm]
  · show some { (mergeStatus b (mergeStats b cand)).1 with last_update := now } =
      some { cand with last_update := now }
    rw [hs, hm]

/-- The candidate for the amended-C1 witness: a different checksum,
catalog now reports Ranked. -/
def c1cand : Beatmap := { sampleCand with status := .RANKED }

/-- The outcome of that replacement. -/
def c1outcome : UpdateOutcome :=
  { returned := some { c1cand with last_update := 100000 }
    deleted := ["A"]
    notifications := []
    saved := some { c1cand with last_update := 100000 } }

/-- Witness for C1 (amended): non-frozen ranked `c3old`, replaced by
`c1cand` under a new checksum. -/
theorem update_beatmap_replacement_witness :
    c1cand.md5 ≠ c3old.md5 ∧ c3old.frozen = false ∧
    ¬(c1cand.status = Status.PENDING ∧
      (c3old.status = Status.RANKED ∨ c3old.status = Status.APPROVED ∨
        c3old.status = Status.LOVED)) ∧
    should_get_updates c3old.status.value c3old.last_update 100000 = .ok true ∧
    update_beatmap c3old 100000 (some c1cand) = .ok c1outcome ∧
    (c1outcome.deleted = [c3old.md5] ∧
      c1outcome.returned = some { c1cand with last_update := 100000 } ∧
      c1outcome.saved = some { c1cand with last_update := 100000 }) :=
  ⟨by decide, rfl, by decide, by rfl, by rfl,
    update_beatmap_replacement c3old c1cand 100000 (by decide) rfl (by decide) (by rfl)
      c1outcome (by rfl)⟩

/-- C9: every entity the parse adapter produces starts with `plays = 0`,
`passes = 0`, `rating = 10.0`, `rankedby = none`, `last_update = now`,
and is frozen exactly when its translated status is Ranked, Approved or
Loved — for any status translation table. -/
theorem parse_from_osu_api_defaults (f : Int → Status) (now : Int)
    (recs : List OsuApiRecord) (maps : List Beatmap)
    (h : parse_from_osu_api f now recs = .ok maps) (b : Beatmap) (hb : b ∈ maps) :
    b.plays = 0 ∧ b.passes = 0 ∧ b.rating = some 10 ∧ b.rankedby = none ∧
    b.last_update = now ∧ (b.frozen = true ↔ b.status ∈ FROZEN_STATUSES) := by
  induction recs generalizing maps with
  | nil =>
    simp only [parse_from_osu_api, Except.ok.injEq] at h
    subst h
    cases hb
  | cons r rest ih =>
    rw [parse_from_osu_api] at h
    cases hm : Mode.fromValue r.mode with
    | none => rw [hm] at h; cases h
    | some mode =>
      rw [hm] at h
      dsimp only at h
      cases hp : parse_from_osu_api f now rest with
      | error e => rw [hp] at h; cases h
      | ok maps1 =>
        rw [hp] at h
        simp only [Except.ok.injEq] at h
        subst h
        rcases List.mem_cons.mp hb with hb1 | hb2
        · subst hb1
          refine ⟨rfl, rfl, rfl, rfl, rfl, ?_⟩
          show FROZEN_STATUSES.contains (f r.approved) = true ↔
            f r.approved ∈ FROZEN_STATUSES
          generalize f r.approved = s
          cases s <;> decide
        · exact ih maps1 hp hb2

/-- A concrete raw catalog record for the parse witness. -/
def c9record : OsuApiRecord :=
  { file_md5 := "M"
    beatmap_id := 1
    beatmapset_id := 2
    artist := "a"
    title := "t"
    creator := "c"
    version := "v"
    hit_length := 90
    max_combo := some 500
    approved := 1
    mode := 0
    bpm := some 180
    diff_overall := 7
    diff_approach := 9
    count_circles := 10
    count_sliders := 20
    count_spinners := 1 }

/-- The entity `parse_from_osu_api` produces for `c9record` at time 777
under the translation sending everything to Ranked. -/
def c9map : Beatmap :=
  { md5 := "M"
    id := 1
    set_id := 2
    song_name := "a - t [v]"
    status := .RANKED
    plays := 0
    passes := 0
    mode := .std
    od := 7
    ar := 9
    hit_length := 90
    last_update := 777
    max_combo := 500
    bpm := 180
    filename := "a - t (c) [v].osu"
    frozen := true
    rankedby := none
    rating := some 10
    bancho_ranked_status := some .RANKED
    count_circles := 10
    count_sliders := 20
    count_spinners := 1 }

/-- Witness for C9: parsing `c9record`. -/
theorem parse_from_osu_api_defaults_witness :
    parse_from_osu_api (fun _ => Status.RANKED) 777 [c9record] = .ok [c9map] ∧
    c9map ∈ [c9map] ∧
    (c9map.plays = 0 ∧ c9map.passes = 0 ∧ c9map.rating = some 10 ∧
      c9map.rankedby = none ∧ c9map.last_update = 777 ∧
      (c9map.frozen = true ↔ c9map.status ∈ FROZEN_STATUSES)) :=
  ⟨by rfl, List.mem_singleton.mpr rfl,
    parse_from_osu_api_defaults (fun _ => Status.RANKED) 777 [c9record] [c9map]
      (by rfl) c9map (List.mem_singleton.mpr rfl)⟩

end Usecases
